import Mathlib

/-!
Shallow embedding of the Vulkan bootstrap application in `MyApplication.h`:
physical-device selection (`pickPhysicalDevice`, `rateDeviceSuitability`,
`findQueueFamilies`), the validation-layer presence check
(`checkValidationLayerSupport` / `createInstance`), and the debug-messenger
setup and teardown (`CreateDebugUtilsMessengerEXT`, `setupDebugMessenger`
modelling `initializeDebugMessenger`, and `finalizeDebugMessenger`).

Driver interaction is modelled by passing the data the driver would report
(device lists, device properties, queue-family properties, available layer
names, resolved function pointers) as explicit arguments.  A `VkPhysicalDevice`
handle is modelled as a record carrying the properties the code reads from it;
`VK_NULL_HANDLE` is modelled by `Option.none` in the selection loop's state.
C++ `throw std::runtime_error(msg)` is modelled by `Except.error msg`.
The C++ `int` score accumulator is modelled by `Int` with 32-bit two's
complement wraparound (`toInt32`) applied where the `uint32_t` limit
`maxImageDimension2D` is added to the `int` score, mirroring the usual
arithmetic conversions.
-/

/-- Device types from `VkPhysicalDeviceType` (the code only distinguishes
`VK_PHYSICAL_DEVICE_TYPE_DISCRETE_GPU` from the rest). -/
inductive VkPhysicalDeviceType where
  | other
  | integratedGpu
  | discreteGpu
  | virtualGpu
  | cpu
deriving DecidableEq, Repr

/-- The fields of `VkQueueFamilyProperties` read by `findQueueFamilies`:
`queueCount` and the `queueFlags` bitmask (both `uint32_t`). -/
structure VkQueueFamilyProperties where
  queueCount : Nat
  queueFlags : Nat
deriving DecidableEq, Repr

/-- `VK_QUEUE_GRAPHICS_BIT = 0x00000001`. -/
def VK_QUEUE_GRAPHICS_BIT : Nat := 1

/-- A physical device handle together with the driver-reported data the code
reads from it: `vkGetPhysicalDeviceProperties` (device type and
`limits.maxImageDimension2D`) and `vkGetPhysicalDeviceQueueFamilyProperties`. -/
structure PhysicalDevice where
  deviceType : VkPhysicalDeviceType
  maxImageDimension2D : Nat
  queueFamilies : List VkQueueFamilyProperties
deriving DecidableEq, Repr

/-- `MyApplication::QueueFamilyIndices`: an optional index of a
graphics-capable queue family. -/
structure QueueFamilyIndices where
  graphicsFamily : Option Nat
deriving DecidableEq, Repr

/-- `QueueFamilyIndices::isComplete()`: `graphicsFamily.has_value()`. -/
def QueueFamilyIndices.isComplete (q : QueueFamilyIndices) : Bool :=
  q.graphicsFamily.isSome

/-- The loop condition in `findQueueFamilies`:
`queueFamily.queueCount > 0 && queueFamily.queueFlags & VK_QUEUE_GRAPHICS_BIT`. -/
def isGraphicsCapable (qf : VkQueueFamilyProperties) : Bool :=
  decide (0 < qf.queueCount) && decide (Nat.land qf.queueFlags VK_QUEUE_GRAPHICS_BIT ≠ 0)

/-- The scanning loop of `MyApplication::findQueueFamilies`: walk the families
in driver order with running index `i`; on the first family with a positive
queue count and the graphics bit, record its index (the loop then observes
`indices.isComplete()` and breaks, so scanning stops at the first match). -/
def findQueueFamiliesAux : List VkQueueFamilyProperties → Nat → QueueFamilyIndices
  | [], _ => ⟨none⟩
  | qf :: rest, i =>
      if isGraphicsCapable qf then ⟨some i⟩
      else findQueueFamiliesAux rest (i + 1)

/-- `MyApplication::findQueueFamilies`, applied to the queue-family list
reported by `vkGetPhysicalDeviceQueueFamilyProperties`. -/
def findQueueFamilies (device : PhysicalDevice) : QueueFamilyIndices :=
  findQueueFamiliesAux device.queueFamilies 0

/-- Reinterpret an integer as a 32-bit two's complement `int` value. -/
def toInt32 (n : Int) : Int := (n + 2 ^ 31) % 2 ^ 32 - 2 ^ 31

/-- `MyApplication::rateDeviceSuitability`: start from 0, add a 1000 bonus for
`VK_PHYSICAL_DEVICE_TYPE_DISCRETE_GPU`, add `limits.maxImageDimension2D`
(a `uint32_t` added to the `int` score, hence the 32-bit wraparound), and
return 0 instead when `findQueueFamilies` is incomplete.  (The tessellation
feature gate is commented out in the source and therefore absent here.) -/
def rateDeviceSuitability (device : PhysicalDevice) : Int :=
  let score : Int := 0
  let score := if device.deviceType = VkPhysicalDeviceType.discreteGpu then score + 1000 else score
  let score := toInt32 (score + (device.maxImageDimension2D : Int))
  let indices := findQueueFamilies device
  if !indices.isComplete then 0 else score

/-- The selection loop of `MyApplication::pickPhysicalDevice`:
`best_device`/`best_score` start as `VK_NULL_HANDLE` (modelled `none`) and 0;
each device's score replaces the best on strict `best_score < score`. -/
def pickLoop : List PhysicalDevice → Option PhysicalDevice → Int →
    Option PhysicalDevice × Int
  | [], best_device, best_score => (best_device, best_score)
  | device :: rest, best_device, best_score =>
      let score := rateDeviceSuitability device
      if best_score < score then pickLoop rest (some device) score
      else pickLoop rest best_device best_score

/-- `MyApplication::pickPhysicalDevice`, applied to the device list reported by
`vkEnumeratePhysicalDevices`: throw on an empty enumeration, run the selection
loop, and throw when `best_device` is still `VK_NULL_HANDLE` afterwards. -/
def pickPhysicalDevice (devices : List PhysicalDevice) : Except String PhysicalDevice :=
  if devices.isEmpty then Except.error "failed to find GPUs with Vulkan support!"
  else
    match pickLoop devices none 0 with
    | (some best_device, _) => Except.ok best_device
    | (none, _) => Except.error "failed to find a suitable GPU!"

/-- The inner lambda of `MyApplication::checkValidationLayerSupport`: does some
available layer's `layerName` compare equal (`strcmp == 0`) to the requested
name? -/
def layerAvailable (layerName : String) (availableLayers : List String) : Bool :=
  availableLayers.any (fun layerProperties => layerProperties == layerName)

/-- `MyApplication::checkValidationLayerSupport`, applied to the layer names
reported by `vkEnumerateInstanceLayerProperties`: every requested layer must
appear among the available ones. -/
def checkValidationLayerSupport (validationLayers availableLayers : List String) : Bool :=
  validationLayers.all (fun layerName => layerAvailable layerName availableLayers)

/-- The `validationLayers` list requested by `createInstance`. -/
def validationLayers : List String := ["VK_LAYER_KHRONOS_validation"]

/-- Results of driver calls, as far as the code distinguishes them. -/
inductive VkResult where
  | success
  | errorExtensionNotPresent
  | errorOther
deriving DecidableEq, Repr

/-- The fallible part of `MyApplication::createInstance`: when validation
layers are enabled and `checkValidationLayerSupport` fails, throw before
`vkCreateInstance` is ever reached; otherwise the driver's `vkCreateInstance`
result (`driverResult`) decides between success and the instance-creation
error. -/
def createInstance (enableValidationLayers : Bool) (availableLayers : List String)
    (driverResult : VkResult) : Except String Unit :=
  if enableValidationLayers && !checkValidationLayerSupport validationLayers availableLayers then
    Except.error "validation layers requested, but not available!"
  else if driverResult ≠ VkResult.success then Except.error "failed to create instance!"
  else Except.ok ()

/-- `MyApplication::CreateDebugUtilsMessengerEXT`: `func` models the pointer
returned by `vkGetInstanceProcAddr` (`none` for `nullptr`, `some r` for a
function whose call returns `r`); a null pointer yields
`VK_ERROR_EXTENSION_NOT_PRESENT`. -/
def CreateDebugUtilsMessengerEXT (func : Option VkResult) : VkResult :=
  match func with
  | none => VkResult.errorExtensionNotPresent
  | some r => r

/-- `MyApplication::initializeDebugMessenger` (named `setupDebugMessenger`
here): a no-op unless validation layers are enabled; otherwise throw exactly
when `CreateDebugUtilsMessengerEXT` returns anything but `VK_SUCCESS`. -/
def setupDebugMessenger (enableValidationLayers : Bool) (func : Option VkResult) :
    Except String Unit :=
  if !enableValidationLayers then Except.ok ()
  else if CreateDebugUtilsMessengerEXT func ≠ VkResult.success then
    Except.error "failed to set up debug messenger!"
  else Except.ok ()

/-- `MyApplication::finalizeDebugMessenger`: a no-op unless validation layers
are enabled; with them, a null `vkDestroyDebugUtilsMessengerEXT` pointer
(`none`) returns silently, and a resolved pointer is called (destruction has no
observable result). -/
def finalizeDebugMessenger (enableValidationLayers : Bool) (func : Option Unit) :
    Except String Unit :=
  if !enableValidationLayers then Except.ok ()
  else
    match func with
    | none => Except.ok ()
    | some _ => Except.ok ()

/-- A queue family with one queue usable for graphics. -/
def graphicsQueueFamily : VkQueueFamilyProperties := ⟨1, VK_QUEUE_GRAPHICS_BIT⟩

/-- The spec's example integrated device: maxDim 4096, graphics queue. -/
def exampleIntegrated : PhysicalDevice :=
  ⟨VkPhysicalDeviceType.integratedGpu, 4096, [graphicsQueueFamily]⟩

/-- The spec's example discrete device: maxDim 8192, graphics queue. -/
def exampleDiscrete : PhysicalDevice :=
  ⟨VkPhysicalDeviceType.discreteGpu, 8192, [graphicsQueueFamily]⟩

/-- A discrete device with maxDim 16384 whose single queue family is
compute-only (`VK_QUEUE_COMPUTE_BIT = 0x2`), so no graphics queue exists. -/
def exampleNoGraphics : PhysicalDevice :=
  ⟨VkPhysicalDeviceType.discreteGpu, 16384, [⟨1, 2⟩]⟩

/-- Two devices with identical computed scores (5000): an integrated one with
maxDim 5000 and a discrete one with maxDim 4000. -/
def tieFirst : PhysicalDevice :=
  ⟨VkPhysicalDeviceType.integratedGpu, 5000, [graphicsQueueFamily]⟩

/-- The later, equally-scored discrete device of the tie example. -/
def tieSecond : PhysicalDevice :=
  ⟨VkPhysicalDeviceType.discreteGpu, 4000, [graphicsQueueFamily]⟩

/-- An integrated GPU with a large maxDim (8192) and a graphics queue. -/
def integratedLargeDim : PhysicalDevice :=
  ⟨VkPhysicalDeviceType.integratedGpu, 8192, [graphicsQueueFamily]⟩

/-- A discrete GPU with a small maxDim (10) and a graphics queue. -/
def discreteSmallDim : PhysicalDevice :=
  ⟨VkPhysicalDeviceType.discreteGpu, 10, [graphicsQueueFamily]⟩

/-! ### Helper lemmas -/

theorem toInt32_of_lt {n : Int} (h0 : 0 ≤ n) (h1 : n < 2 ^ 31) : toInt32 n = n := by
  unfold toInt32
  have h32 : (2 : Int) ^ 32 = 4294967296 := by norm_num
  have h31 : (2 : Int) ^ 31 = 2147483648 := by norm_num
  rw [Int.emod_eq_of_lt (by omega) (by omega)]
  omega

theorem rate_eq_of_complete (d : PhysicalDevice)
    (hc : (findQueueFamilies d).isComplete = true)
    (hb : d.maxImageDimension2D + 1000 < 2 ^ 31) :
    rateDeviceSuitability d =
      (if d.deviceType = VkPhysicalDeviceType.discreteGpu then 1000 else 0) +
        (d.maxImageDimension2D : Int) := by
  simp only [rateDeviceSuitability, hc, Bool.not_true, Bool.false_eq_true, if_false]
  have hb' : (d.maxImageDimension2D : Int) + 1000 < 2 ^ 31 := by
    have := hb
    push_cast at this ⊢
    omega
  by_cases hd : d.deviceType = VkPhysicalDeviceType.discreteGpu
  · simp only [hd, if_true]
    rw [toInt32_of_lt (by positivity) (by omega)]
    ring
  · simp only [hd, if_false]
    rw [toInt32_of_lt (by positivity) (by omega)]

theorem rate_pos_of_discrete_complete (d : PhysicalDevice)
    (hd : d.deviceType = VkPhysicalDeviceType.discreteGpu)
    (hc : (findQueueFamilies d).isComplete = true)
    (hb : d.maxImageDimension2D + 1000 < 2 ^ 31) :
    0 < rateDeviceSuitability d := by
  rw [rate_eq_of_complete d hc hb, hd]
  simp only [if_true]
  positivity

theorem isEmpty_false_of_ne_nil {α : Type} {l : List α} (h : l ≠ []) : l.isEmpty = false := by
  cases l with
  | nil => exact absurd rfl h
  | cons a t => rfl

theorem pickLoop_eq_of_le :
    ∀ (ds : List PhysicalDevice) (best : Option PhysicalDevice) (bs : Int),
      (∀ e ∈ ds, rateDeviceSuitability e ≤ bs) → pickLoop ds best bs = (best, bs)
  | [], _, _, _ => rfl
  | d :: rest, best, bs, h => by
      have hd : rateDeviceSuitability d ≤ bs := h d (List.mem_cons_self d rest)
      have hrest : ∀ e ∈ rest, rateDeviceSuitability e ≤ bs :=
        fun e he => h e (List.mem_cons_of_mem d he)
      simp only [pickLoop]
      rw [if_neg (by omega)]
      exact pickLoop_eq_of_le rest best bs hrest

theorem pickLoop_none_elim :
    ∀ (ds : List PhysicalDevice) (best : Option PhysicalDevice) (bs s : Int),
      pickLoop ds best bs = (none, s) →
      best = none ∧ s = bs ∧ ∀ e ∈ ds, rateDeviceSuitability e ≤ bs
  | [], best, bs, s, h => by
      simp only [pickLoop, Prod.mk.injEq] at h
      exact ⟨h.1, h.2.symm, fun e he => (List.not_mem_nil e he).elim⟩
  | d :: rest, best, bs, s, h => by
      simp only [pickLoop] at h
      by_cases hlt : bs < rateDeviceSuitability d
      · rw [if_pos hlt] at h
        obtain ⟨h1, _, _⟩ := pickLoop_none_elim rest (some d) (rateDeviceSuitability d) s h
        exact Option.noConfusion h1
      · rw [if_neg hlt] at h
        obtain ⟨h1, h2, h3⟩ := pickLoop_none_elim rest best bs s h
        refine ⟨h1, h2, ?_⟩
        intro e he
        rcases List.mem_cons.mp he with rfl | hmem
        · omega
        · exact h3 e hmem

theorem pickLoop_some_elim :
    ∀ (ds : List PhysicalDevice) (best : Option PhysicalDevice) (bs : Int)
      (d : PhysicalDevice) (s : Int),
      pickLoop ds best bs = (some d, s) →
      (best = some d ∧ s = bs ∧ ∀ e ∈ ds, rateDeviceSuitability e ≤ bs) ∨
      (∃ pre post, ds = pre ++ d :: post ∧ s = rateDeviceSuitability d ∧
        bs < rateDeviceSuitability d ∧
        (∀ e ∈ pre, rateDeviceSuitability e < rateDeviceSuitability d) ∧
        (∀ e ∈ post, rateDeviceSuitability e ≤ rateDeviceSuitability d))
  | [], best, bs, d, s, h => by
      simp only [pickLoop, Prod.mk.injEq] at h
      exact Or.inl ⟨h.1, h.2.symm, fun e he => (List.not_mem_nil e he).elim⟩
  | q :: rest, best, bs, d, s, h => by
      simp only [pickLoop] at h
      by_cases hlt : bs < rateDeviceSuitability q
      · rw [if_pos hlt] at h
        rcases pickLoop_some_elim rest (some q) (rateDeviceSuitability q) d s h with
          ⟨h1, h2, h3⟩ | ⟨pre, post, hsplit, hs, hlt2, hpre, hpost⟩
        · have hqd : q = d := by injection h1
          subst hqd
          exact Or.inr ⟨[], rest, rfl, h2, hlt,
            fun e he => (List.not_mem_nil e he).elim, h3⟩
        · refine Or.inr ⟨q :: pre, post, by rw [hsplit, List.cons_append], hs, by omega, ?_, hpost⟩
          intro e he
          rcases List.mem_cons.mp he with rfl | hmem
          · exact hlt2
          · exact hpre e hmem
      · rw [if_neg hlt] at h
        rcases pickLoop_some_elim rest best bs d s h with
          ⟨h1, h2, h3⟩ | ⟨pre, post, hsplit, hs, hlt2, hpre, hpost⟩
        · refine Or.inl ⟨h1, h2, ?_⟩
          intro e he
          rcases List.mem_cons.mp he with rfl | hmem
          · omega
          · exact h3 e hmem
        · refine Or.inr ⟨q :: pre, post, by rw [hsplit, List.cons_append], hs, hlt2, ?_, hpost⟩
          intro e he
          rcases List.mem_cons.mp he with rfl | hmem
          · omega
          · exact hpre e hmem

/-- C2: for every device whose queue-family discovery is complete,
`rateDeviceSuitability` returns exactly `maxImageDimension2D` plus a bonus of
1000 for a discrete GPU and 0 otherwise (under the 32-bit `int` bound on the
sum); and on the list [integrated maxDim 4096, discrete maxDim 8192] the
scores are 4096 and 9192 and the discrete device is selected. -/
theorem rate_formula_and_example :
    (∀ d : PhysicalDevice, (findQueueFamilies d).isComplete = true →
        d.maxImageDimension2D + 1000 < 2 ^ 31 →
        rateDeviceSuitability d =
          (if d.deviceType = VkPhysicalDeviceType.discreteGpu then 1000 else 0) +
            (d.maxImageDimension2D : Int)) ∧
    rateDeviceSuitability exampleIntegrated = 4096 ∧
    rateDeviceSuitability exampleDiscrete = 9192 ∧
    pickPhysicalDevice [exampleIntegrated, exampleDiscrete] = Except.ok exampleDiscrete :=
  ⟨fun d hc hb => rate_eq_of_complete d hc hb, by decide, by decide, by rfl⟩

/-- Witness for C2 at the spec's discrete example device. -/
theorem rate_formula_witness :
    (findQueueFamilies exampleDiscrete).isComplete = true ∧
    exampleDiscrete.maxImageDimension2D + 1000 < 2 ^ 31 ∧
    rateDeviceSuitability exampleDiscrete =
      (if exampleDiscrete.deviceType = VkPhysicalDeviceType.discreteGpu then 1000 else 0) +
        (exampleDiscrete.maxImageDimension2D : Int) :=
  ⟨by decide, by decide, rate_formula_and_example.1 exampleDiscrete (by decide) (by decide)⟩

/-- C3: a device whose queue-family discovery is incomplete scores exactly 0,
regardless of its device type and `maxImageDimension2D`. -/
theorem rate_zero_of_incomplete (d : PhysicalDevice)
    (h : (findQueueFamilies d).isComplete = false) :
    rateDeviceSuitability d = 0 := by
  simp [rateDeviceSuitability, h]

/-- Witness for C3: a discrete GPU with maxDim 16384 and no graphics queue
family scores 0. -/
theorem rate_zero_witness :
    (findQueueFamilies exampleNoGraphics).isComplete = false ∧
    rateDeviceSuitability exampleNoGraphics = 0 :=
  ⟨by decide, rate_zero_of_incomplete exampleNoGraphics (by decide)⟩

/-- C4: with zero enumerated devices, `pickPhysicalDevice` fails with the
"no compatible hardware" error, not the "no suitable GPU" error, and returns no
device. -/
theorem pick_empty_no_hardware_error :
    pickPhysicalDevice [] = Except.error "failed to find GPUs with Vulkan support!" := rfl

/-- C5: with a non-empty device list in which no device scores strictly
positively, `pickPhysicalDevice` fails with the "no suitable GPU" error. -/
theorem pick_no_positive_score_error (ds : List PhysicalDevice)
    (hne : ds ≠ []) (hz : ∀ e ∈ ds, rateDeviceSuitability e ≤ 0) :
    pickPhysicalDevice ds = Except.error "failed to find a suitable GPU!" := by
  unfold pickPhysicalDevice
  rw [if_neg (by simp [isEmpty_false_of_ne_nil hne])]
  rw [pickLoop_eq_of_le ds none 0 hz]

/-- Witness for C5: the spec's example list with a single discrete device that
has no graphics queue family fails with the "no suitable GPU" error. -/
theorem pick_no_positive_score_witness :
    [exampleNoGraphics] ≠ ([] : List PhysicalDevice) ∧
    pickPhysicalDevice [exampleNoGraphics] =
      Except.error "failed to find a suitable GPU!" :=
  ⟨by decide, pick_no_positive_score_error [exampleNoGraphics] (by decide)
    (fun e he => by rw [List.mem_singleton] at he; subst he; decide)⟩

/-- C9: a null `vkCreateDebugUtilsMessengerEXT` pointer makes
`CreateDebugUtilsMessengerEXT` return `VK_ERROR_EXTENSION_NOT_PRESENT` and
debug-messenger setup (`initializeDebugMessenger`) throw, while
`finalizeDebugMessenger` always returns without error. -/
theorem debugMessenger_null_pointer :
    CreateDebugUtilsMessengerEXT none = VkResult.errorExtensionNotPresent ∧
    setupDebugMessenger true none = Except.error "failed to set up debug messenger!" ∧
    ∀ (b : Bool) (f : Option Unit), finalizeDebugMessenger b f = Except.ok () := by
  refine ⟨rfl, rfl, ?_⟩
  intro b f
  cases b <;> cases f <;> rfl

/-- C6: whenever `pickPhysicalDevice` returns a device, that device is the
first element of the enumeration attaining the maximal score: every earlier
device scores strictly lower and every later one scores no higher, so with
strict greater-than tracking an already-selected device is never replaced by
an equally-scored later one. -/
theorem pick_first_of_maximal_score (ds : List PhysicalDevice) (d : PhysicalDevice)
    (h : pickPhysicalDevice ds = Except.ok d) :
    ∃ pre post, ds = pre ++ d :: post ∧
      (∀ e ∈ pre, rateDeviceSuitability e < rateDeviceSuitability d) ∧
      (∀ e ∈ post, rateDeviceSuitability e ≤ rateDeviceSuitability d) := by
  unfold pickPhysicalDevice at h
  by_cases hemp : ds.isEmpty
  · rw [if_pos hemp] at h
    exact Except.noConfusion h
  · rw [if_neg hemp] at h
    cases hres : pickLoop ds none 0 with
    | mk ob s =>
      rw [hres] at h
      cases ob with
      | none => exact Except.noConfusion h
      | some b =>
        have h' : Except.ok (ε := String) b = Except.ok d := h
        have hbd : b = d := by injection h'
        subst hbd
        rcases pickLoop_some_elim ds none 0 b s hres with
          ⟨h1, _, _⟩ | ⟨pre, post, hsplit, _, _, hpre, hpost⟩
        · exact Option.noConfusion h1
        · exact ⟨pre, post, hsplit, hpre, hpost⟩

/-- Witness for C6: on the tie list both devices score 5000 and the first one
is returned. -/
theorem pick_first_of_maximal_score_witness :
    ∃ pre post, [tieFirst, tieSecond] = pre ++ tieFirst :: post ∧
      (∀ e ∈ pre, rateDeviceSuitability e < rateDeviceSuitability tieFirst) ∧
      (∀ e ∈ post, rateDeviceSuitability e ≤ rateDeviceSuitability tieFirst) :=
  pick_first_of_maximal_score [tieFirst, tieSecond] tieFirst (by rfl)

/-- C10: whenever `pickPhysicalDevice` returns normally, the selection loop's
`best_device` is not `VK_NULL_HANDLE` (modelled: it is `some` of the returned
device), the returned device is an element of the enumerated list, its score is
strictly positive, and its score is maximal among all enumerated devices. -/
theorem pick_ok_characterization (ds : List PhysicalDevice) (d : PhysicalDevice)
    (h : pickPhysicalDevice ds = Except.ok d) :
    (pickLoop ds none 0).1 = some d ∧ d ∈ ds ∧ 0 < rateDeviceSuitability d ∧
      ∀ e ∈ ds, rateDeviceSuitability e ≤ rateDeviceSuitability d := by
  unfold pickPhysicalDevice at h
  by_cases hemp : ds.isEmpty
  · rw [if_pos hemp] at h
    exact Except.noConfusion h
  · rw [if_neg hemp] at h
    cases hres : pickLoop ds none 0 with
    | mk ob s =>
      rw [hres] at h
      cases ob with
      | none => exact Except.noConfusion h
      | some b =>
        have h' : Except.ok (ε := String) b = Except.ok d := h
        have hbd : b = d := by injection h'
        subst hbd
        rcases pickLoop_some_elim ds none 0 b s hres with
          ⟨h1, _, _⟩ | ⟨pre, post, hsplit, _, hpos, hpre, hpost⟩
        · exact Option.noConfusion h1
        · have hmax : ∀ e ∈ ds, rateDeviceSuitability e ≤ rateDeviceSuitability b := by
            intro e he
            rw [hsplit] at he
            rcases List.mem_append.mp he with hq | hq
            · exact le_of_lt (hpre e hq)
            · rcases List.mem_cons.mp hq with rfl | hq
              · exact le_refl _
              · exact hpost e hq
          refine ⟨rfl, ?_, hpos, hmax⟩
          rw [hsplit]
          exact List.mem_append.mpr (Or.inr (List.mem_cons_self b post))

/-- Witness for C10 on the spec's example list. -/
theorem pick_ok_characterization_witness :
    (pickLoop [exampleIntegrated, exampleDiscrete] none 0).1 = some exampleDiscrete ∧
    exampleDiscrete ∈ [exampleIntegrated, exampleDiscrete] ∧
    0 < rateDeviceSuitability exampleDiscrete :=
  ⟨(pick_ok_characterization [exampleIntegrated, exampleDiscrete] exampleDiscrete (by rfl)).1,
   (pick_ok_characterization [exampleIntegrated, exampleDiscrete] exampleDiscrete (by rfl)).2.1,
   (pick_ok_characterization [exampleIntegrated, exampleDiscrete] exampleDiscrete (by rfl)).2.2.1⟩

/-- Counterexample to C1: the list [integrated maxDim 8192, discrete maxDim 10]
contains a discrete GPU with a graphics-capable queue family (score 1010), yet
`pickPhysicalDevice` returns the integrated device (score 8192), so the
selector does not always return a discrete-GPU handle. -/
theorem pick_not_always_discrete :
    discreteSmallDim.deviceType = VkPhysicalDeviceType.discreteGpu ∧
    (findQueueFamilies discreteSmallDim).isComplete = true ∧
    pickPhysicalDevice [integratedLargeDim, discreteSmallDim] =
      Except.ok integratedLargeDim ∧
    integratedLargeDim.deviceType ≠ VkPhysicalDeviceType.discreteGpu ∧
    rateDeviceSuitability discreteSmallDim < rateDeviceSuitability integratedLargeDim :=
  ⟨rfl, by decide, by rfl, by decide, by decide⟩

/-- C1 (amended): for any enumerated list containing a discrete GPU with a
graphics-capable queue family (and an `int`-representable score),
`pickPhysicalDevice` succeeds and returns a device of maximal score — in
particular its score is at least that of the discrete GPU, so an integrated
device with a lower score than the discrete one is never returned; the
returned handle need not itself be discrete. -/
theorem pick_succeeds_with_discrete (ds : List PhysicalDevice) (e : PhysicalDevice)
    (he : e ∈ ds) (hd : e.deviceType = VkPhysicalDeviceType.discreteGpu)
    (hc : (findQueueFamilies e).isComplete = true)
    (hb : e.maxImageDimension2D + 1000 < 2 ^ 31) :
    ∃ d, pickPhysicalDevice ds = Except.ok d ∧
      rateDeviceSuitability e ≤ rateDeviceSuitability d ∧
      ∀ q ∈ ds, rateDeviceSuitability q ≤ rateDeviceSuitability d := by
  have hpos : 0 < rateDeviceSuitability e := rate_pos_of_discrete_complete e hd hc hb
  have hne : ds ≠ [] := by
    rintro rfl
    exact (List.not_mem_nil e) he
  cases hres : pickLoop ds none 0 with
  | mk ob s =>
    cases ob with
    | none =>
        obtain ⟨_, _, hall⟩ := pickLoop_none_elim ds none 0 s hres
        exact absurd (hall e he) (by omega)
    | some b =>
        rcases pickLoop_some_elim ds none 0 b s hres with
          ⟨h1, _, _⟩ | ⟨pre, post, hsplit, _, _, hpre, hpost⟩
        · exact Option.noConfusion h1
        · have hmax : ∀ q ∈ ds, rateDeviceSuitability q ≤ rateDeviceSuitability b := by
            intro q hq
            rw [hsplit] at hq
            rcases List.mem_append.mp hq with hq | hq
            · exact le_of_lt (hpre q hq)
            · rcases List.mem_cons.mp hq with rfl | hq
              · exact le_refl _
              · exact hpost q hq
          refine ⟨b, ?_, hmax e he, hmax⟩
          unfold pickPhysicalDevice
          rw [if_neg (by simp [isEmpty_false_of_ne_nil hne]), hres]

/-- Witness for the amended C1 on the counterexample list: the selector
succeeds and the returned device outscores the discrete one. -/
theorem pick_succeeds_with_discrete_witness :
    ∃ d, pickPhysicalDevice [integratedLargeDim, discreteSmallDim] = Except.ok d ∧
      rateDeviceSuitability discreteSmallDim ≤ rateDeviceSuitability d ∧
      ∀ q ∈ [integratedLargeDim, discreteSmallDim],
        rateDeviceSuitability q ≤ rateDeviceSuitability d :=
  pick_succeeds_with_discrete [integratedLargeDim, discreteSmallDim] discreteSmallDim
    (by decide) rfl (by decide) (by decide)

theorem findQueueFamiliesAux_none (qs : List VkQueueFamilyProperties) : ∀ i0 : Nat,
    (findQueueFamiliesAux qs i0).graphicsFamily = none ↔
      ∀ qf ∈ qs, isGraphicsCapable qf = false := by
  induction qs with
  | nil => intro i0; simp [findQueueFamiliesAux]
  | cons q rest ih =>
      intro i0
      by_cases hq : isGraphicsCapable q = true
      · simp [findQueueFamiliesAux, hq]
      · simp [findQueueFamiliesAux, hq, ih (i0 + 1)]

theorem findQueueFamiliesAux_some (qs : List VkQueueFamilyProperties) : ∀ (i0 i : Nat),
    (findQueueFamiliesAux qs i0).graphicsFamily = some i ↔
      ∃ pre qf post, qs = pre ++ qf :: post ∧ i = i0 + pre.length ∧
        isGraphicsCapable qf = true ∧ ∀ p ∈ pre, isGraphicsCapable p = false := by
  induction qs with
  | nil =>
      intro i0 i
      constructor
      · intro h; exact Option.noConfusion h
      · rintro ⟨pre, qf, post, hsplit, -⟩
        exact absurd hsplit (by simp)
  | cons q rest ih =>
      intro i0 i
      by_cases hq : isGraphicsCapable q = true
      · simp only [findQueueFamiliesAux, hq, if_true]
        constructor
        · intro h
          have hi : i0 = i := by injection h
          exact ⟨[], q, rest, rfl, by simp [hi], hq, fun p hp => (List.not_mem_nil p hp).elim⟩
        · rintro ⟨pre, qf, post, hsplit, hi, hcap, hpre⟩
          cases pre with
          | nil =>
              obtain ⟨rfl, rfl⟩ : q = qf ∧ rest = post := by
                simpa using hsplit
              simp at hi
              rw [hi]
          | cons p pre' =>
              obtain ⟨rfl, -⟩ : q = p ∧ rest = pre' ++ qf :: post := by
                simpa using hsplit
              have hq0 : isGraphicsCapable q = false := hpre q (List.mem_cons_self q pre')
              rw [hq] at hq0
              exact Bool.noConfusion hq0
      · have hq' : isGraphicsCapable q = false := by
          simpa using hq
        simp only [findQueueFamiliesAux, hq', Bool.false_eq_true, if_false]
        rw [ih (i0 + 1) i]
        constructor
        · rintro ⟨pre, qf, post, hsplit, hi, hcap, hpre⟩
          refine ⟨q :: pre, qf, post, by rw [hsplit, List.cons_append], ?_, hcap, ?_⟩
          · simp only [List.length_cons]
            omega
          · intro p hp
            rcases List.mem_cons.mp hp with rfl | hp
            · exact hq'
            · exact hpre p hp
        · rintro ⟨pre, qf, post, hsplit, hi, hcap, hpre⟩
          cases pre with
          | nil =>
              obtain ⟨rfl, -⟩ : q = qf ∧ rest = post := by
                simpa using hsplit
              exact absurd hcap hq
          | cons p pre' =>
              obtain ⟨rfl, hrest⟩ : q = p ∧ rest = pre' ++ qf :: post := by
                simpa using hsplit
              refine ⟨pre', qf, post, hrest, ?_, hcap,
                fun x hx => hpre x (List.mem_cons_of_mem q hx)⟩
              simp only [List.length_cons] at hi
              omega

/-- C7: `findQueueFamilies` scans the queue families in driver order and its
result holds the index of the first family with a positive queue count and the
graphics bit (every earlier family fails the test), and it is incomplete
(`graphicsFamily` empty) exactly when no family qualifies. -/
theorem findQueueFamilies_first_match (d : PhysicalDevice) :
    ((findQueueFamilies d).isComplete = false ↔
      (findQueueFamilies d).graphicsFamily = none) ∧
    ((findQueueFamilies d).graphicsFamily = none ↔
      ∀ qf ∈ d.queueFamilies, isGraphicsCapable qf = false) ∧
    ∀ i : Nat, (findQueueFamilies d).graphicsFamily = some i ↔
      ∃ pre qf post, d.queueFamilies = pre ++ qf :: post ∧ i = pre.length ∧
        isGraphicsCapable qf = true ∧ ∀ p ∈ pre, isGraphicsCapable p = false := by
  refine ⟨?_, findQueueFamiliesAux_none d.queueFamilies 0, fun i => ?_⟩
  · unfold QueueFamilyIndices.isComplete
    cases (findQueueFamilies d).graphicsFamily <;> simp
  · rw [findQueueFamilies, findQueueFamiliesAux_some d.queueFamilies 0 i]
    simp only [Nat.zero_add]

/-- C8: `checkValidationLayerSupport` returns true exactly when every requested
layer name appears among the available layers; and with validation enabled and
a requested layer missing, `createInstance` throws the "validation layers
requested, but not available!" error (before any instance is created). -/
theorem layer_support_iff_and_missing_layer_throws :
    (∀ vs avail : List String, checkValidationLayerSupport vs avail = true ↔
        ∀ name ∈ vs, name ∈ avail) ∧
    ∀ (avail : List String) (r : VkResult),
      (∃ name ∈ validationLayers, name ∉ avail) →
      createInstance true avail r =
        Except.error "validation layers requested, but not available!" := by
  have hiff : ∀ vs avail : List String,
      checkValidationLayerSupport vs avail = true ↔ ∀ name ∈ vs, name ∈ avail := by
    intro vs avail
    simp [checkValidationLayerSupport, layerAvailable, List.all_eq_true, List.any_eq_true]
  refine ⟨hiff, ?_⟩
  intro avail r hmiss
  have hchk : checkValidationLayerSupport validationLayers avail = false := by
    rcases hmiss with ⟨name, hmem, hnot⟩
    by_contra h
    rw [Bool.not_eq_false] at h
    exact hnot ((hiff validationLayers avail).mp h name hmem)
  unfold createInstance
  rw [hchk]
  simp

/-- Witness for C8: with no available layers, the requested validation layer is
missing and instance creation throws the validation-layer error. -/
theorem missing_layer_throws_witness :
    (∃ name ∈ validationLayers, name ∉ ([] : List String)) ∧
    createInstance true [] VkResult.success =
      Except.error "validation layers requested, but not available!" :=
  ⟨by decide, layer_support_iff_and_missing_layer_throws.2 [] VkResult.success (by decide)⟩
